import Mathlib

/-!
Verification of the algorithmic core of `streamlit_app.py`:
the Ichimoku indicator engine (`calculate_ichimoku`), the trading
strategy evaluator (`apply_trading_strategy`) and the trade log sink
(`log_trade`).

Prices are modelled as rationals (`ℚ`); a pandas `Series` of floats with
possible `NaN` holes is modelled as a `List (Option ℚ)` where `none`
stands for `NaN` (an undefined position), and `NaN` propagation through
arithmetic is modelled by `omap2`.
-/

/-- One market snapshot, the row of the dataframe consumed by the core.
The `close` field is the price read as column `lastTrade` by
`calculate_ichimoku` and as column `close` by `apply_trading_strategy`;
the data model identifies the two (close aliased "lastTrade"). -/
structure QuoteRecord where
  symbol : String
  «open» : ℚ
  high : ℚ
  low : ℚ
  close : ℚ
deriving Inhabited, Repr, DecidableEq

/-- Maximum of a list of prices; `none` on the empty list. -/
def listMax : List ℚ → Option ℚ
  | [] => none
  | x :: xs => some (xs.foldl max x)

/-- Minimum of a list of prices; `none` on the empty list. -/
def listMin : List ℚ → Option ℚ
  | [] => none
  | x :: xs => some (xs.foldl min x)

/-- pandas `Series.rolling(window=w).max()`: position `i` holds the
maximum of the trailing window `xs[i-w+1..i]` once `w` values are
available (`w ≤ i + 1`), and `NaN` before that. -/
def rollingMax (w : Nat) (xs : List ℚ) : List (Option ℚ) :=
  (List.range xs.length).map fun i =>
    if w ≤ i + 1 then listMax ((xs.drop (i + 1 - w)).take w) else none

/-- pandas `Series.rolling(window=w).min()`, dually to `rollingMax`. -/
def rollingMin (w : Nat) (xs : List ℚ) : List (Option ℚ) :=
  (List.range xs.length).map fun i =>
    if w ≤ i + 1 then listMin ((xs.drop (i + 1 - w)).take w) else none

/-- `NaN`-propagating binary arithmetic on nullable values: defined only
when both operands are. -/
def omap2 (f : ℚ → ℚ → ℚ) : Option ℚ → Option ℚ → Option ℚ
  | some a, some b => some (f a b)
  | _, _ => none

/-- Pointwise sum of two index-aligned pandas series (`s + t`). -/
def seriesAdd (a b : List (Option ℚ)) : List (Option ℚ) :=
  List.zipWith (omap2 (· + ·)) a b

/-- Pointwise halving of a pandas series (`s / 2`). -/
def seriesDiv2 (a : List (Option ℚ)) : List (Option ℚ) :=
  a.map (Option.map (fun x => x / 2))

/-- pandas `Series.shift(n)` for `n ≥ 0`: position `i` holds the source
value at `i - n`, and `NaN` for the first `n` positions. -/
def shiftForward (n : Nat) (xs : List (Option ℚ)) : List (Option ℚ) :=
  (List.range xs.length).map fun i =>
    if n ≤ i then xs.getD (i - n) none else none

/-- pandas `Series.shift(-n)`: position `i` holds the source value at
`i + n`, and `NaN` for the last `n` positions. -/
def shiftBack (n : Nat) (xs : List (Option ℚ)) : List (Option ℚ) :=
  (List.range xs.length).map fun i => xs.getD (i + n) none

/-- Tenkan-sen (Conversion Line):
`(high.rolling(9).max() + low.rolling(9).min()) / 2`. -/
def tenkan_sen_series (d : List QuoteRecord) : List (Option ℚ) :=
  seriesDiv2 (seriesAdd (rollingMax 9 (d.map (·.high))) (rollingMin 9 (d.map (·.low))))

/-- Kijun-sen (Base Line):
`(high.rolling(26).max() + low.rolling(26).min()) / 2`. -/
def kijun_sen_series (d : List QuoteRecord) : List (Option ℚ) :=
  seriesDiv2 (seriesAdd (rollingMax 26 (d.map (·.high))) (rollingMin 26 (d.map (·.low))))

/-- Senkou Span A (Leading Span A): `((tenkan_sen + kijun_sen) / 2).shift(26)`. -/
def senkou_span_a_series (d : List QuoteRecord) : List (Option ℚ) :=
  shiftForward 26 (seriesDiv2 (seriesAdd (tenkan_sen_series d) (kijun_sen_series d)))

/-- Senkou Span B (Leading Span B):
`((high.rolling(52).max() + low.rolling(52).min()) / 2).shift(26)`. -/
def senkou_span_b_series (d : List QuoteRecord) : List (Option ℚ) :=
  shiftForward 26 (seriesDiv2 (seriesAdd (rollingMax 52 (d.map (·.high))) (rollingMin 52 (d.map (·.low)))))

/-- Chikou Span (Lagging Span): `close.shift(-26)` on the `lastTrade`
column. -/
def chikou_span_series (d : List QuoteRecord) : List (Option ℚ) :=
  shiftBack 26 ((d.map (·.close)).map some)

/-- The five series returned by `calculate_ichimoku`, in return order. -/
structure IchimokuOutput where
  tenkan_sen : List (Option ℚ)
  kijun_sen : List (Option ℚ)
  senkou_span_a : List (Option ℚ)
  senkou_span_b : List (Option ℚ)
  chikou_span : List (Option ℚ)
deriving Repr, DecidableEq

/-- `calculate_ichimoku(data)`: when `data is not None and len(data) >= 52`
it returns the five Ichimoku series; otherwise it reports "Not enough
data for Ichimoku Cloud calculation" and returns `None` (modelled as
`none`). -/
def calculate_ichimoku (data : Option (List QuoteRecord)) : Option IchimokuOutput :=
  match data with
  | some d =>
    if 52 ≤ d.length then
      some ⟨tenkan_sen_series d, kijun_sen_series d, senkou_span_a_series d,
            senkou_span_b_series d, chikou_span_series d⟩
    else none
  | none => none

/-- The dict handed to `log_trade`: the Trade Decision
`{symbol, action, price}`.  The action is the literal string the source
assigns (`"buy call"`, `"buy put"` or `"hold"`). -/
structure TradeInfo where
  symbol : String
  action : String
  price : ℚ
deriving Repr, DecidableEq

/-- One CSV row of `trade_log.csv`, fields in the order written by
`writer.writerow([datetime.datetime.now(), symbol, action, price])`.
The wall-clock timestamp is modelled as an abstract `Nat`. -/
structure TradeLogEntry where
  timestamp : Nat
  symbol : String
  action : String
  price : ℚ
deriving Repr, DecidableEq

/-- `log_trade(trade_info)`: opening `trade_log.csv` in mode `'a'`
creates the file when absent (store `none` becomes the empty list) and
appends exactly one row at the end.  The store before the call is
`Option (List TradeLogEntry)`, `none` meaning the file does not exist. -/
def log_trade (now : Nat) (trade_info : TradeInfo)
    (store : Option (List TradeLogEntry)) : List TradeLogEntry :=
  store.getD [] ++ [⟨now, trade_info.symbol, trade_info.action, trade_info.price⟩]

/-- Result of one `apply_trading_strategy` call: the decision it logged
(`none` when the precondition failed), whether the "Not enough data to
apply the strategy" error was shown, and the trade-log store after the
call (`none` when the file still does not exist). -/
structure StrategyResult where
  decision : Option TradeInfo
  insufficient_data : Bool
  trade_log : Option (List TradeLogEntry)
deriving Repr, DecidableEq

/-- `apply_trading_strategy(data, target_price)`: when
`data is not None and len(data) >= 5`, compare the `head(5).mean()` of
the close column with position 0 of the open column, pick the action
(`"buy call"` / `"buy put"` / `"hold"`) and call `log_trade` with a
dict of the symbol at position 0, the action and the target price;
otherwise show the error and log nothing. -/
def apply_trading_strategy (now : Nat) (data : Option (List QuoteRecord))
    (target_price : ℚ) (store : Option (List TradeLogEntry)) : StrategyResult :=
  match data with
  | some d =>
    if 5 ≤ d.length then
      let closes5 := (d.take 5).map (·.close)
      let avg_close := closes5.sum / (closes5.length : ℚ)
      let first_open := d.headI.«open»
      let action :=
        if avg_close > first_open then "buy call"
        else if avg_close < first_open then "buy put"
        else "hold"
      let info : TradeInfo := ⟨d.headI.symbol, action, target_price⟩
      ⟨some info, false, some (log_trade now info store)⟩
    else ⟨none, true, store⟩
  | none => ⟨none, true, store⟩

/-- Arithmetic mean of the close values of the first 5 records, as the
spec words it ("arithmetic mean of close over the first 5 records in
series order"); under the precondition `5 ≤ length` it coincides with
the pandas `head(5).mean()` the source computes. -/
def mean5_close (d : List QuoteRecord) : ℚ :=
  (((d.take 5).map (·.close)).sum) / 5

/-- The `open` of the first record (position 0 of the open column). -/
def first_open (d : List QuoteRecord) : ℚ :=
  d.headI.«open»

/-- The decision rule of the strategy, in the terms of the spec: compare the
mean of the first 5 closes with the first open. -/
def strategy_action (d : List QuoteRecord) : String :=
  if mean5_close d > first_open d then "buy call"
  else if mean5_close d < first_open d then "buy put"
  else "hold"

/-- A constant quote used to build long concrete series. -/
def sampleQuote : QuoteRecord := ⟨"ACME", 1, 2, 0, 1⟩

/-- A concrete series of 80 identical quotes. -/
def sample80 : List QuoteRecord := List.replicate 80 sampleQuote

/-- A concrete series of 3 quotes, too short for both preconditions. -/
def sample3 : List QuoteRecord := List.replicate 3 sampleQuote

/-- A concrete 5-quote series with closes 10..14 (mean 12) and first
open 11. -/
def sampleUp : List QuoteRecord :=
  [⟨"ACME", 11, 12, 9, 10⟩, ⟨"ACME", 11, 12, 9, 11⟩, ⟨"ACME", 11, 12, 9, 12⟩,
   ⟨"ACME", 11, 12, 9, 13⟩, ⟨"ACME", 11, 12, 9, 14⟩]

/-- A series agreeing with `sampleUp` on the first 5 closes and the
first open, but different everywhere else (symbol, highs, lows, later
records, length). -/
def sampleUp2 : List QuoteRecord :=
  [⟨"WIDG", 11, 99, 1, 10⟩, ⟨"WIDG", 3, 99, 1, 11⟩, ⟨"WIDG", 3, 99, 1, 12⟩,
   ⟨"WIDG", 3, 99, 1, 13⟩, ⟨"WIDG", 3, 99, 1, 14⟩, ⟨"WIDG", 3, 99, 1, 0⟩]

example : listMax [3, 1, 4] = some 4 := by decide
example : rollingMax 2 [1, 5, 2] = [none, some 5, some 5] := by decide
example : shiftForward 1 [some 7, some 8] = [none, some 7] := by decide
example : shiftBack 1 [some 7, some 8] = [some 8, none] := by decide

lemma getD_range_map (N : Nat) (f : Nat → Option ℚ) (i : Nat) (h : i < N) :
    ((List.range N).map f).getD i none = f i := by
  rw [List.getD_eq_getElem?_getD, List.getElem?_map, List.getElem?_range h]
  rfl

lemma length_rollingMax (w : Nat) (xs : List ℚ) :
    (rollingMax w xs).length = xs.length := by
  simp [rollingMax]

lemma length_rollingMin (w : Nat) (xs : List ℚ) :
    (rollingMin w xs).length = xs.length := by
  simp [rollingMin]

lemma length_seriesAdd (a b : List (Option ℚ)) :
    (seriesAdd a b).length = min a.length b.length := by
  simp [seriesAdd]

lemma length_seriesDiv2 (a : List (Option ℚ)) :
    (seriesDiv2 a).length = a.length := by
  simp [seriesDiv2]

lemma length_shiftForward (n : Nat) (xs : List (Option ℚ)) :
    (shiftForward n xs).length = xs.length := by
  simp [shiftForward]

lemma length_shiftBack (n : Nat) (xs : List (Option ℚ)) :
    (shiftBack n xs).length = xs.length := by
  simp [shiftBack]

lemma getD_rollingMax (w : Nat) (xs : List ℚ) (i : Nat) (h : i < xs.length) :
    (rollingMax w xs).getD i none =
      if w ≤ i + 1 then listMax ((xs.drop (i + 1 - w)).take w) else none := by
  rw [rollingMax]; exact getD_range_map _ _ i h

lemma getD_rollingMin (w : Nat) (xs : List ℚ) (i : Nat) (h : i < xs.length) :
    (rollingMin w xs).getD i none =
      if w ≤ i + 1 then listMin ((xs.drop (i + 1 - w)).take w) else none := by
  rw [rollingMin]; exact getD_range_map _ _ i h

lemma getD_seriesAdd (a b : List (Option ℚ)) (i : Nat)
    (ha : i < a.length) (hb : i < b.length) :
    (seriesAdd a b).getD i none = omap2 (· + ·) (a.getD i none) (b.getD i none) := by
  rw [seriesAdd, List.getD_eq_getElem?_getD, List.getElem?_zipWith,
    List.getElem?_eq_getElem ha, List.getElem?_eq_getElem hb,
    List.getD_eq_getElem a none ha, List.getD_eq_getElem b none hb]
  rfl

lemma getD_seriesDiv2 (a : List (Option ℚ)) (i : Nat) (h : i < a.length) :
    (seriesDiv2 a).getD i none = Option.map (fun x => x / 2) (a.getD i none) := by
  rw [seriesDiv2, List.getD_eq_getElem?_getD, List.getElem?_map,
    List.getElem?_eq_getElem h, List.getD_eq_getElem a none h]
  rfl

lemma getD_shiftForward (n : Nat) (xs : List (Option ℚ)) (i : Nat) (h : i < xs.length) :
    (shiftForward n xs).getD i none =
      if n ≤ i then xs.getD (i - n) none else none := by
  rw [shiftForward]; exact getD_range_map _ _ i h

lemma getD_shiftBack (n : Nat) (xs : List (Option ℚ)) (i : Nat) (h : i < xs.length) :
    (shiftBack n xs).getD i none = xs.getD (i + n) none := by
  rw [shiftBack]; exact getD_range_map _ _ i h

lemma listMax_isSome (xs : List ℚ) (h : xs ≠ []) : (listMax xs).isSome = true := by
  cases xs with
  | nil => exact absurd rfl h
  | cons x xs => rfl

lemma listMin_isSome (xs : List ℚ) (h : xs ≠ []) : (listMin xs).isSome = true := by
  cases xs with
  | nil => exact absurd rfl h
  | cons x xs => rfl

lemma slice_ne_nil (xs : List ℚ) (a w : Nat) (ha : a < xs.length) (hw : 0 < w) :
    (xs.drop a).take w ≠ [] := by
  rw [← List.length_pos, List.length_take, List.length_drop]
  omega

lemma omap2_map (g : ℚ → ℚ) (f : ℚ → ℚ → ℚ) (a b : Option ℚ) :
    Option.map g (omap2 f a b) = omap2 (fun x y => g (f x y)) a b := by
  cases a <;> cases b <;> rfl

lemma omap2_none_left (f : ℚ → ℚ → ℚ) (b : Option ℚ) : omap2 f none b = none := by
  cases b <;> rfl

lemma omap2_none_right (f : ℚ → ℚ → ℚ) (a : Option ℚ) : omap2 f a none = none := by
  cases a <;> rfl

lemma omap2_isSome (f : ℚ → ℚ → ℚ) (a b : Option ℚ)
    (ha : a.isSome = true) (hb : b.isSome = true) : (omap2 f a b).isSome = true := by
  cases a with
  | none => exact absurd ha (by simp)
  | some x =>
    cases b with
    | none => exact absurd hb (by simp)
    | some y => rfl

lemma length_tenkan (d : List QuoteRecord) :
    (tenkan_sen_series d).length = d.length := by
  simp [tenkan_sen_series, length_seriesDiv2, length_seriesAdd,
    length_rollingMax, length_rollingMin]

lemma length_kijun (d : List QuoteRecord) :
    (kijun_sen_series d).length = d.length := by
  simp [kijun_sen_series, length_seriesDiv2, length_seriesAdd,
    length_rollingMax, length_rollingMin]

lemma length_senkou_a (d : List QuoteRecord) :
    (senkou_span_a_series d).length = d.length := by
  simp [senkou_span_a_series, length_shiftForward, length_seriesDiv2,
    length_seriesAdd, length_tenkan, length_kijun]

lemma length_senkou_b (d : List QuoteRecord) :
    (senkou_span_b_series d).length = d.length := by
  simp [senkou_span_b_series, length_shiftForward, length_seriesDiv2,
    length_seriesAdd, length_rollingMax, length_rollingMin]

lemma length_chikou (d : List QuoteRecord) :
    (chikou_span_series d).length = d.length := by
  simp [chikou_span_series, length_shiftBack]

lemma getD_midline (w : Nat) (d : List QuoteRecord) (i : Nat) (h : i < d.length) :
    (seriesDiv2 (seriesAdd (rollingMax w (d.map (·.high)))
        (rollingMin w (d.map (·.low))))).getD i none =
      if w ≤ i + 1 then
        omap2 (fun a b => (a + b) / 2)
          (listMax (((d.map (·.high)).drop (i + 1 - w)).take w))
          (listMin (((d.map (·.low)).drop (i + 1 - w)).take w))
      else none := by
  have hh : i < (d.map (·.high)).length := by simpa using h
  have hl : i < (d.map (·.low)).length := by simpa using h
  have hA : i < (rollingMax w (d.map (·.high))).length := by
    rw [length_rollingMax]; exact hh
  have hB : i < (rollingMin w (d.map (·.low))).length := by
    rw [length_rollingMin]; exact hl
  have hAB : i < (seriesAdd (rollingMax w (d.map (·.high)))
      (rollingMin w (d.map (·.low)))).length := by
    rw [length_seriesAdd]; exact lt_min hA hB
  rw [getD_seriesDiv2 _ _ hAB, getD_seriesAdd _ _ _ hA hB,
    getD_rollingMax _ _ _ hh, getD_rollingMin _ _ _ hl]
  by_cases hcond : w ≤ i + 1
  · rw [if_pos hcond, if_pos hcond, if_pos hcond, omap2_map]
  · rw [if_neg hcond, if_neg hcond, if_neg hcond, omap2_none_left]
    rfl

lemma midline_isSome (w : Nat) (hw : 0 < w) (d : List QuoteRecord) (i : Nat)
    (h : i < d.length) (hcond : w ≤ i + 1) :
    ((seriesDiv2 (seriesAdd (rollingMax w (d.map (·.high)))
        (rollingMin w (d.map (·.low))))).getD i none).isSome = true := by
  rw [getD_midline w d i h, if_pos hcond]
  have hdrop : i + 1 - w < (d.map (·.high)).length := by simp; omega
  have hdrop' : i + 1 - w < (d.map (·.low)).length := by simp; omega
  exact omap2_isSome _ _ _
    (listMax_isSome _ (slice_ne_nil _ _ _ hdrop hw))
    (listMin_isSome _ (slice_ne_nil _ _ _ hdrop' hw))

lemma tenkan_getD (d : List QuoteRecord) (i : Nat) (h : i < d.length) :
    (tenkan_sen_series d).getD i none =
      if 9 ≤ i + 1 then
        omap2 (fun a b => (a + b) / 2)
          (listMax (((d.map (·.high)).drop (i + 1 - 9)).take 9))
          (listMin (((d.map (·.low)).drop (i + 1 - 9)).take 9))
      else none := by
  rw [tenkan_sen_series]; exact getD_midline 9 d i h

lemma kijun_getD (d : List QuoteRecord) (i : Nat) (h : i < d.length) :
    (kijun_sen_series d).getD i none =
      if 26 ≤ i + 1 then
        omap2 (fun a b => (a + b) / 2)
          (listMax (((d.map (·.high)).drop (i + 1 - 26)).take 26))
          (listMin (((d.map (·.low)).drop (i + 1 - 26)).take 26))
      else none := by
  rw [kijun_sen_series]; exact getD_midline 26 d i h

lemma tenkan_isSome (d : List QuoteRecord) (i : Nat) (h : i < d.length) (hi : 8 ≤ i) :
    ((tenkan_sen_series d).getD i none).isSome = true := by
  rw [tenkan_sen_series]; exact midline_isSome 9 (by omega) d i h (by omega)

lemma kijun_isSome (d : List QuoteRecord) (i : Nat) (h : i < d.length) (hi : 25 ≤ i) :
    ((kijun_sen_series d).getD i none).isSome = true := by
  rw [kijun_sen_series]; exact midline_isSome 26 (by omega) d i h (by omega)

lemma tenkan_none (d : List QuoteRecord) (i : Nat) (h : i < d.length) (hi : i < 8) :
    (tenkan_sen_series d).getD i none = none := by
  rw [tenkan_getD d i h, if_neg (by omega)]

lemma kijun_none (d : List QuoteRecord) (i : Nat) (h : i < d.length) (hi : i < 25) :
    (kijun_sen_series d).getD i none = none := by
  rw [kijun_getD d i h, if_neg (by omega)]

lemma senkou_a_getD (d : List QuoteRecord) (i : Nat) (h : i < d.length) (hi : 26 ≤ i) :
    (senkou_span_a_series d).getD i none =
      omap2 (fun t k => (t + k) / 2)
        ((tenkan_sen_series d).getD (i - 26) none)
        ((kijun_sen_series d).getD (i - 26) none) := by
  have hT : i - 26 < (tenkan_sen_series d).length := by rw [length_tenkan]; omega
  have hK : i - 26 < (kijun_sen_series d).length := by rw [length_kijun]; omega
  have hTK : i - 26 < (seriesAdd (tenkan_sen_series d) (kijun_sen_series d)).length := by
    rw [length_seriesAdd]; exact lt_min hT hK
  have hM : i < (seriesDiv2 (seriesAdd (tenkan_sen_series d) (kijun_sen_series d))).length := by
    rw [length_seriesDiv2, length_seriesAdd, length_tenkan, length_kijun, Nat.min_self]
    exact h
  rw [senkou_span_a_series, getD_shiftForward _ _ _ hM, if_pos hi,
    getD_seriesDiv2 _ _ hTK, getD_seriesAdd _ _ _ hT hK, omap2_map]

lemma senkou_a_shift_none (d : List QuoteRecord) (i : Nat) (h : i < d.length) (hi : i < 26) :
    (senkou_span_a_series d).getD i none = none := by
  have hM : i < (seriesDiv2 (seriesAdd (tenkan_sen_series d) (kijun_sen_series d))).length := by
    rw [length_seriesDiv2, length_seriesAdd, length_tenkan, length_kijun, Nat.min_self]
    exact h
  rw [senkou_span_a_series, getD_shiftForward _ _ _ hM, if_neg (by omega)]

lemma senkou_b_getD (d : List QuoteRecord) (i : Nat) (h : i < d.length) :
    (senkou_span_b_series d).getD i none =
      if 26 ≤ i then
        (if 52 ≤ i - 26 + 1 then
          omap2 (fun a b => (a + b) / 2)
            (listMax (((d.map (·.high)).drop (i - 26 + 1 - 52)).take 52))
            (listMin (((d.map (·.low)).drop (i - 26 + 1 - 52)).take 52))
        else none)
      else none := by
  have hM : i < (seriesDiv2 (seriesAdd (rollingMax 52 (d.map (·.high)))
      (rollingMin 52 (d.map (·.low))))).length := by
    rw [length_seriesDiv2, length_seriesAdd, length_rollingMax, length_rollingMin]
    simpa [Nat.min_self] using h
  rw [senkou_span_b_series, getD_shiftForward _ _ _ hM]
  by_cases hi : 26 ≤ i
  · rw [if_pos hi, if_pos hi, getD_midline 52 d (i - 26) (by omega)]
  · rw [if_neg hi, if_neg hi]

lemma chikou_getD (d : List QuoteRecord) (i : Nat) (h : i < d.length) :
    (chikou_span_series d).getD i none =
      if i + 26 < d.length then some ((d.map (·.close)).getD (i + 26) 0) else none := by
  have hs : i < ((d.map (·.close)).map some).length := by simpa using h
  rw [chikou_span_series, getD_shiftBack _ _ _ hs]
  by_cases hc : i + 26 < d.length
  · rw [if_pos hc]
    have hc' : i + 26 < (d.map (·.close)).length := by simpa using hc
    rw [List.getD_eq_getElem?_getD, List.getElem?_map, List.getElem?_eq_getElem hc',
      List.getD_eq_getElem _ 0 hc']
    rfl
  · rw [if_neg hc]
    have hc' : ((d.map (·.close)).map some).length ≤ i + 26 := by simp; omega
    rw [List.getD_eq_getElem?_getD, List.getElem?_eq_none hc']
    rfl

lemma calculate_ichimoku_of_ge (d : List QuoteRecord) (hN : 52 ≤ d.length) :
    calculate_ichimoku (some d) =
      some ⟨tenkan_sen_series d, kijun_sen_series d, senkou_span_a_series d,
            senkou_span_b_series d, chikou_span_series d⟩ := by
  rw [calculate_ichimoku, if_pos hN]

lemma calculate_ichimoku_of_lt (d : List QuoteRecord) (hN : d.length < 52) :
    calculate_ichimoku (some d) = none := by
  rw [calculate_ichimoku, if_neg (by omega)]

lemma apply_strategy_spec (now : Nat) (d : List QuoteRecord) (tp : ℚ)
    (store : Option (List TradeLogEntry)) (h : 5 ≤ d.length) :
    apply_trading_strategy now (some d) tp store =
      ⟨some ⟨d.headI.symbol, strategy_action d, tp⟩, false,
       some (log_trade now ⟨d.headI.symbol, strategy_action d, tp⟩ store)⟩ := by
  have hlen : ((d.take 5).map (·.close)).length = 5 := by
    simp [List.length_take]; omega
  simp only [apply_trading_strategy, if_pos h, strategy_action, mean5_close, first_open, hlen]
  norm_num

/-- C1: for every quote series of length ≥ 5 and every target price, the
action of the Strategy Evaluator is determined by comparing the arithmetic
mean of the close values of the first 5 records against the open of the
first record: mean greater yields "buy call", mean smaller yields
"buy put", and exact equality yields "hold". -/
theorem C1_decision_rule (now : Nat) (d : List QuoteRecord) (tp : ℚ)
    (store : Option (List TradeLogEntry)) (h : 5 ≤ d.length) :
    ((apply_trading_strategy now (some d) tp store).decision).isSome = true ∧
    (first_open d < mean5_close d →
      (apply_trading_strategy now (some d) tp store).decision =
        some ⟨d.headI.symbol, "buy call", tp⟩) ∧
    (mean5_close d < first_open d →
      (apply_trading_strategy now (some d) tp store).decision =
        some ⟨d.headI.symbol, "buy put", tp⟩) ∧
    (mean5_close d = first_open d →
      (apply_trading_strategy now (some d) tp store).decision =
        some ⟨d.headI.symbol, "hold", tp⟩) := by
  rw [apply_strategy_spec now d tp store h]
  refine ⟨rfl, ?_, ?_, ?_⟩
  · intro hgt
    rw [show strategy_action d = "buy call" from by rw [strategy_action, if_pos hgt]]
  · intro hlt
    rw [show strategy_action d = "buy put" from by
      rw [strategy_action, if_neg (by exact fun hc => absurd hc (not_lt.mpr hlt.le)),
        if_pos hlt]]
  · intro heq
    rw [show strategy_action d = "hold" from by
      rw [strategy_action, if_neg (by rw [heq]; exact lt_irrefl _),
        if_neg (by rw [heq]; exact lt_irrefl _)]]

/-- C2: for every quote series of length ≥ 52, Tenkan-sen at position
`i` is the midpoint of the max high and min low over positions
`i-8..i` and undefined for `i < 8`; Kijun-sen at position `i` is the
midpoint over positions `i-25..i` and undefined for `i < 25`. -/
theorem C2_conversion_base_lines (d : List QuoteRecord) (hN : 52 ≤ d.length) :
    (calculate_ichimoku (some d) =
      some ⟨tenkan_sen_series d, kijun_sen_series d, senkou_span_a_series d,
            senkou_span_b_series d, chikou_span_series d⟩) ∧
    (∀ i, i < d.length → i < 8 → (tenkan_sen_series d).getD i none = none) ∧
    (∀ i, i < d.length → 8 ≤ i →
      ((tenkan_sen_series d).getD i none).isSome = true ∧
      (tenkan_sen_series d).getD i none =
        omap2 (fun a b => (a + b) / 2)
          (listMax (((d.map (·.high)).drop (i - 8)).take 9))
          (listMin (((d.map (·.low)).drop (i - 8)).take 9))) ∧
    (∀ i, i < d.length → i < 25 → (kijun_sen_series d).getD i none = none) ∧
    (∀ i, i < d.length → 25 ≤ i →
      ((kijun_sen_series d).getD i none).isSome = true ∧
      (kijun_sen_series d).getD i none =
        omap2 (fun a b => (a + b) / 2)
          (listMax (((d.map (·.high)).drop (i - 25)).take 26))
          (listMin (((d.map (·.low)).drop (i - 25)).take 26))) := by
  refine ⟨calculate_ichimoku_of_ge d hN, ?_, ?_, ?_, ?_⟩
  · intro i h hi; exact tenkan_none d i h hi
  · intro i h hi
    refine ⟨tenkan_isSome d i h hi, ?_⟩
    rw [tenkan_getD d i h, if_pos (by omega), show i + 1 - 9 = i - 8 from by omega]
  · intro i h hi; exact kijun_none d i h hi
  · intro i h hi
    refine ⟨kijun_isSome d i h hi, ?_⟩
    rw [kijun_getD d i h, if_pos (by omega), show i + 1 - 26 = i - 25 from by omega]

/-- C3: for every quote series of length ≥ 52, Senkou Span A is the
pointwise midpoint of Tenkan-sen and Kijun-sen shifted forward 26
positions (undefined where the source index is undefined or out of
range, i.e. for `i < 51`), and Senkou Span B is the 52-window high/low
midpoint over positions `i-77..i-26` shifted forward 26, undefined for
`i < 77`. -/
theorem C3_leading_spans (d : List QuoteRecord) (_hN : 52 ≤ d.length) :
    (∀ i, i < d.length → 26 ≤ i →
      (senkou_span_a_series d).getD i none =
        omap2 (fun t k => (t + k) / 2)
          ((tenkan_sen_series d).getD (i - 26) none)
          ((kijun_sen_series d).getD (i - 26) none)) ∧
    (∀ i, i < d.length → i < 51 → (senkou_span_a_series d).getD i none = none) ∧
    (∀ i, i < d.length → 51 ≤ i →
      ((senkou_span_a_series d).getD i none).isSome = true) ∧
    (∀ i, i < d.length → i < 77 → (senkou_span_b_series d).getD i none = none) ∧
    (∀ i, i < d.length → 77 ≤ i →
      ((senkou_span_b_series d).getD i none).isSome = true ∧
      (senkou_span_b_series d).getD i none =
        omap2 (fun a b => (a + b) / 2)
          (listMax (((d.map (·.high)).drop (i - 77)).take 52))
          (listMin (((d.map (·.low)).drop (i - 77)).take 52))) := by
  refine ⟨?_, ?_, ?_, ?_, ?_⟩
  · intro i h hi; exact senkou_a_getD d i h hi
  · intro i h hi
    by_cases h26 : 26 ≤ i
    · rw [senkou_a_getD d i h h26, kijun_none d (i - 26) (by omega) (by omega),
        omap2_none_right]
    · exact senkou_a_shift_none d i h (by omega)
  · intro i h hi
    rw [senkou_a_getD d i h (by omega)]
    exact omap2_isSome _ _ _ (tenkan_isSome d (i - 26) (by omega) (by omega))
      (kijun_isSome d (i - 26) (by omega) (by omega))
  · intro i h hi
    rw [senkou_b_getD d i h]
    by_cases h26 : 26 ≤ i
    · rw [if_pos h26, if_neg (by omega)]
    · rw [if_neg h26]
  · intro i h hi
    have he : i - 26 + 1 - 52 = i - 77 := by omega
    have hfu : (senkou_span_b_series d).getD i none =
        omap2 (fun a b => (a + b) / 2)
          (listMax (((d.map (·.high)).drop (i - 77)).take 52))
          (listMin (((d.map (·.low)).drop (i - 77)).take 52)) := by
      rw [senkou_b_getD d i h, if_pos (by omega), if_pos (by omega), he]
    refine ⟨?_, hfu⟩
    rw [hfu]
    exact omap2_isSome _ _ _
      (listMax_isSome _ (slice_ne_nil _ _ _ (by simp; omega) (by omega)))
      (listMin_isSome _ (slice_ne_nil _ _ _ (by simp; omega) (by omega)))

/-- C4: for every quote series of length ≥ 52, Chikou Span at position
`i` equals the close at position `i+26` whenever `i + 26 < N`, and is
undefined for the last 26 positions. -/
theorem C4_chikou_span (d : List QuoteRecord) (_hN : 52 ≤ d.length) :
    (∀ i, i < d.length → i + 26 < d.length →
      (chikou_span_series d).getD i none =
        some ((d.map (·.close)).getD (i + 26) 0)) ∧
    (∀ i, i < d.length → d.length ≤ i + 26 →
      (chikou_span_series d).getD i none = none) ∧
    (chikou_span_series d).length = d.length := by
  refine ⟨?_, ?_, length_chikou d⟩
  · intro i h hc; rw [chikou_getD d i h, if_pos hc]
  · intro i h hc; rw [chikou_getD d i h, if_neg (by omega)]

/-- C5: the Indicator Engine returns its five series, each of the input
length, exactly when the input series has length ≥ 52; for shorter
input it returns nothing at all (no partial output). -/
theorem C5_all_or_nothing (d : List QuoteRecord) :
    ((calculate_ichimoku (some d)).isSome = true ↔ 52 ≤ d.length) ∧
    (d.length < 52 → calculate_ichimoku (some d) = none) ∧
    (52 ≤ d.length →
      calculate_ichimoku (some d) =
        some ⟨tenkan_sen_series d, kijun_sen_series d, senkou_span_a_series d,
              senkou_span_b_series d, chikou_span_series d⟩ ∧
      (tenkan_sen_series d).length = d.length ∧
      (kijun_sen_series d).length = d.length ∧
      (senkou_span_a_series d).length = d.length ∧
      (senkou_span_b_series d).length = d.length ∧
      (chikou_span_series d).length = d.length) := by
  refine ⟨⟨?_, ?_⟩, ?_, ?_⟩
  · intro hs
    by_contra hlt
    rw [calculate_ichimoku_of_lt d (by omega)] at hs
    exact absurd hs (by simp)
  · intro hN
    rw [calculate_ichimoku_of_ge d hN]
    rfl
  · exact calculate_ichimoku_of_lt d
  · intro hN
    exact ⟨calculate_ichimoku_of_ge d hN, length_tenkan d, length_kijun d,
      length_senkou_a d, length_senkou_b d, length_chikou d⟩

/-- C6: every Strategy Evaluator call that meets the precondition
(length ≥ 5) grows the Trade Log by exactly one entry — also when the
action is "hold" — and the price of the appended entry is exactly the
caller-supplied target price. -/
theorem C6_logs_exactly_one (now : Nat) (d : List QuoteRecord) (tp : ℚ)
    (store : Option (List TradeLogEntry)) (h : 5 ≤ d.length) :
    ((apply_trading_strategy now (some d) tp store).trade_log).isSome = true ∧
    (((apply_trading_strategy now (some d) tp store).trade_log).getD []).length =
      (store.getD []).length + 1 ∧
    ((((apply_trading_strategy now (some d) tp store).trade_log).getD []).getLast?).map
      TradeLogEntry.price = some tp := by
  rw [apply_strategy_spec now d tp store h]
  refine ⟨rfl, ?_, ?_⟩
  · simp [log_trade]
  · simp [log_trade, List.getLast?_concat]

/-- C7: for every quote series of length < 5 the Strategy Evaluator
reports insufficient data, produces no Trade Decision and leaves the
Trade Log store as it was. -/
theorem C7_insufficient_strategy (now : Nat) (d : List QuoteRecord) (tp : ℚ)
    (store : Option (List TradeLogEntry)) (h : d.length < 5) :
    apply_trading_strategy now (some d) tp store = ⟨none, true, store⟩ := by
  simp only [apply_trading_strategy]
  rw [if_neg (by omega)]

/-- C8: every Trade Log append writes exactly one entry, with fields in
the fixed order timestamp, symbol, action, price, placed at the end of
the store, leaving all previously appended entries unchanged, and the
store is created when absent. -/
theorem C8_append_semantics (now : Nat) (info : TradeInfo)
    (store : Option (List TradeLogEntry)) :
    (log_trade now info store).length = (store.getD []).length + 1 ∧
    (log_trade now info store).take (store.getD []).length = store.getD [] ∧
    (log_trade now info store).getLast? =
      some ⟨now, info.symbol, info.action, info.price⟩ ∧
    log_trade now info none = [⟨now, info.symbol, info.action, info.price⟩] := by
  refine ⟨by simp [log_trade], ?_, by simp [log_trade, List.getLast?_concat],
    by simp [log_trade]⟩
  rw [log_trade]
  exact List.take_left _ _

/-- C9: when the precondition of the Strategy Evaluator fails (input absent
or shorter than 5 records), the Trade Log store is left completely
unchanged. -/
theorem C9_error_branch_frame (now : Nat) (tp : ℚ)
    (store : Option (List TradeLogEntry)) (data : Option (List QuoteRecord))
    (h : data = none ∨ ∃ d, data = some d ∧ d.length < 5) :
    (apply_trading_strategy now data tp store).trade_log = store := by
  rcases h with h | ⟨d, rfl, hd⟩
  · subst h; rfl
  · simp only [apply_trading_strategy]
    rw [if_neg (by omega)]

/-- C10: any two quote series of length ≥ 5 that agree on the close
values of their first 5 records and on the open of their first record
receive the same decided action, for every target price, timestamp and
prior log store. -/
theorem C10_noninterference (now₁ now₂ : Nat) (d₁ d₂ : List QuoteRecord)
    (tp₁ tp₂ : ℚ) (s₁ s₂ : Option (List TradeLogEntry))
    (h₁ : 5 ≤ d₁.length) (h₂ : 5 ≤ d₂.length)
    (hclose : (d₁.take 5).map (·.close) = (d₂.take 5).map (·.close))
    (hopen : d₁.headI.«open» = d₂.headI.«open») :
    ((apply_trading_strategy now₁ (some d₁) tp₁ s₁).decision).map TradeInfo.action =
    ((apply_trading_strategy now₂ (some d₂) tp₂ s₂).decision).map TradeInfo.action := by
  have hm : mean5_close d₁ = mean5_close d₂ := by rw [mean5_close, mean5_close, hclose]
  have ho : first_open d₁ = first_open d₂ := by rw [first_open, first_open, hopen]
  rw [apply_strategy_spec now₁ d₁ tp₁ s₁ h₁, apply_strategy_spec now₂ d₂ tp₂ s₂ h₂]
  simp only [Option.map_some]
  rw [strategy_action, strategy_action, hm, ho]
  rfl

lemma foldl_max_replicate (x : ℚ) (n : Nat) : (List.replicate n x).foldl max x = x := by
  induction n with
  | zero => rfl
  | succ n ih => simpa [List.replicate_succ, max_self] using ih

lemma foldl_min_replicate (x : ℚ) (n : Nat) : (List.replicate n x).foldl min x = x := by
  induction n with
  | zero => rfl
  | succ n ih => simpa [List.replicate_succ, min_self] using ih

lemma listMax_replicate (n : Nat) (x : ℚ) :
    listMax (List.replicate (n + 1) x) = some x := by
  rw [List.replicate_succ]
  show some ((List.replicate n x).foldl max x) = some x
  rw [foldl_max_replicate]

lemma listMin_replicate (n : Nat) (x : ℚ) :
    listMin (List.replicate (n + 1) x) = some x := by
  rw [List.replicate_succ]
  show some ((List.replicate n x).foldl min x) = some x
  rw [foldl_min_replicate]

/-- Witness for C1 at a concrete rising series: mean close 12 > first
open 11 gives "buy call" at the target price. -/
theorem C1_decision_rule_witness :
    (apply_trading_strategy 0 (some sampleUp) 25 none).decision =
      some ⟨"ACME", "buy call", 25⟩ := by
  have h := (C1_decision_rule 0 sampleUp 25 none (by decide)).2.1
    (by norm_num [first_open, mean5_close, sampleUp])
  simpa [sampleUp] using h

/-- Witness for C2 on a constant 80-quote series: Tenkan-sen undefined
at 7, midpoint 1 at 8; Kijun-sen undefined at 24, midpoint 1 at 25. -/
theorem C2_conversion_base_lines_witness :
    (tenkan_sen_series sample80).getD 7 none = none ∧
    (tenkan_sen_series sample80).getD 8 none = some 1 ∧
    (kijun_sen_series sample80).getD 24 none = none ∧
    (kijun_sen_series sample80).getD 25 none = some 1 := by
  have h := C2_conversion_base_lines sample80 (by simp [sample80])
  refine ⟨h.2.1 7 (by simp [sample80]) (by omega), ?_,
    h.2.2.2.1 24 (by simp [sample80]) (by omega), ?_⟩
  · rw [(h.2.2.1 8 (by simp [sample80]) (by omega)).2]
    have e1 : ((sample80.map (·.high)).drop (8 - 8)).take 9 = List.replicate 9 (2:ℚ) := by
      simp [sample80, sampleQuote, List.map_replicate, List.drop_replicate, List.take_replicate]
    have e2 : ((sample80.map (·.low)).drop (8 - 8)).take 9 = List.replicate 9 (0:ℚ) := by
      simp [sample80, sampleQuote, List.map_replicate, List.drop_replicate, List.take_replicate]
    rw [e1, e2, show (9:Nat) = 8 + 1 from rfl, listMax_replicate, listMin_replicate]
    simp [omap2]
  · rw [(h.2.2.2.2 25 (by simp [sample80]) (by omega)).2]
    have e1 : ((sample80.map (·.high)).drop (25 - 25)).take 26 = List.replicate 26 (2:ℚ) := by
      simp [sample80, sampleQuote, List.map_replicate, List.drop_replicate, List.take_replicate]
    have e2 : ((sample80.map (·.low)).drop (25 - 25)).take 26 = List.replicate 26 (0:ℚ) := by
      simp [sample80, sampleQuote, List.map_replicate, List.drop_replicate, List.take_replicate]
    rw [e1, e2, show (26:Nat) = 25 + 1 from rfl, listMax_replicate, listMin_replicate]
    simp [omap2]

/-- Witness for C3 on a constant 80-quote series: Senkou Span A is
undefined at 50 and defined at 51; Senkou Span B is undefined at 76 and
equals the 52-window midpoint 1 at 77. -/
theorem C3_leading_spans_witness :
    (senkou_span_a_series sample80).getD 50 none = none ∧
    ((senkou_span_a_series sample80).getD 51 none).isSome = true ∧
    (senkou_span_b_series sample80).getD 76 none = none ∧
    (senkou_span_b_series sample80).getD 77 none = some 1 := by
  have h := C3_leading_spans sample80 (by simp [sample80])
  refine ⟨h.2.1 50 (by simp [sample80]) (by omega),
    h.2.2.1 51 (by simp [sample80]) (by omega),
    h.2.2.2.1 76 (by simp [sample80]) (by omega), ?_⟩
  rw [(h.2.2.2.2 77 (by simp [sample80]) (by omega)).2]
  have e1 : ((sample80.map (·.high)).drop (77 - 77)).take 52 = List.replicate 52 (2:ℚ) := by
    simp [sample80, sampleQuote, List.map_replicate, List.drop_replicate, List.take_replicate]
  have e2 : ((sample80.map (·.low)).drop (77 - 77)).take 52 = List.replicate 52 (0:ℚ) := by
    simp [sample80, sampleQuote, List.map_replicate, List.drop_replicate, List.take_replicate]
  rw [e1, e2, show (52:Nat) = 51 + 1 from rfl, listMax_replicate, listMin_replicate]
  simp [omap2]

/-- Witness for C4 on a constant 80-quote series: Chikou Span holds the
close 26 ahead at 53 and is absent from 54 on. -/
theorem C4_chikou_span_witness :
    (chikou_span_series sample80).getD 53 none = some 1 ∧
    (chikou_span_series sample80).getD 54 none = none := by
  have h := C4_chikou_span sample80 (by simp [sample80])
  refine ⟨?_, h.2.1 54 (by simp [sample80]) (by simp [sample80])⟩
  rw [h.1 53 (by simp [sample80]) (by simp [sample80])]
  have e : (sample80.map (·.close)).getD 79 0 = 1 := by
    simp [sample80, sampleQuote, List.getD_eq_getElem?_getD, List.getElem?_replicate]
  rw [show (53:Nat) + 26 = 79 from rfl, e]

/-- Witness for C6: on an empty existing store, one evaluation leaves a
one-entry log whose entry carries the exact target price. -/
theorem C6_logs_exactly_one_witness :
    ((apply_trading_strategy 0 (some sample80) 7 (some [])).trade_log).isSome = true ∧
    (((apply_trading_strategy 0 (some sample80) 7 (some [])).trade_log).getD []).length = 1 ∧
    ((((apply_trading_strategy 0 (some sample80) 7 (some [])).trade_log).getD
        []).getLast?).map TradeLogEntry.price = some 7 := by
  have h := C6_logs_exactly_one 0 sample80 7 (some []) (by simp [sample80])
  simpa using h

/-- Witness for C7 at a concrete 3-quote series. -/
theorem C7_insufficient_strategy_witness :
    apply_trading_strategy 0 (some sample3) 7 (some []) = ⟨none, true, some []⟩ :=
  C7_insufficient_strategy 0 sample3 7 (some []) (by simp [sample3])

/-- Witness for C9 at a concrete 3-quote series: the store is
untouched. -/
theorem C9_error_branch_frame_witness :
    (apply_trading_strategy 0 (some sample3) 7 (some [])).trade_log = some [] :=
  C9_error_branch_frame 0 7 (some []) (some sample3)
    (Or.inr ⟨sample3, rfl, by simp [sample3]⟩)

/-- Witness for C10: two concretely different series agreeing on the
first 5 closes and first open get the same action. -/
theorem C10_noninterference_witness :
    ((apply_trading_strategy 0 (some sampleUp) 25 none).decision).map TradeInfo.action =
    ((apply_trading_strategy 5 (some sampleUp2) 99 (some [])).decision).map
      TradeInfo.action :=
  C10_noninterference 0 5 sampleUp sampleUp2 25 99 none (some [])
    (by decide) (by decide) rfl rfl
